import Mathlib

/-!
Verification of the external-data-fetch layer of the DynoTrip backend
(`backend/agents/itinerary_agent/utils/agent.py`), shallowly embedded in
Lean 4.  Pure fragments of the Python code are translated into Lean
functions; stateful fragments (the cache, the HTTP-session globals, the
network-call counter) become explicit state passing.  Python exceptions
are modelled with `Except` / explicit outcome types, Python `dict`s with
association lists or finite update functions, and wall-clock time with
rationals.

One piece of the repository code is absent from the sources: the module
global `redis_client` is read by `get_cache` / `set_cache` but no code in
the repository ever initialises it.  Its initialisation is modelled from
the spec ("cache backend connection string (optional; absence selects
in-process fallback)") as an optional backend handle; its *uses* are
translated from the source.
-/

namespace DynoTrip

/-! ## Connection manager (`get_session`, `init_session`)

`agent.py` holds one module-global `session`.  `get_session` (lines
130-149) lazily creates an `aiohttp.ClientSession` whose `TCPConnector`
is configured with `limit_per_host=CONCURRENT_REQUESTS`; `init_session`
(lines 560-565) creates a session with only a total timeout and the
*default* connector, which imposes no per-host limit.  A session is
modelled by its configuration record. -/

/-- Constant `CONCURRENT_REQUESTS = 10` (agent.py line 71). -/
def CONCURRENT_REQUESTS : Nat := 10

/-- Constant `CACHE_TTL = 3600` (agent.py line 69). -/
def CACHE_TTL : Nat := 3600

/-- Configuration of an `aiohttp.ClientSession` as built by `agent.py`.
`limitPerHost = none` means the connector imposes no per-host
connection ceiling (the default aiohttp connector). -/
structure SessionCfg where
  timeoutTotal : Option Nat
  timeoutConnect : Option Nat
  limitPerHost : Option Nat
  dnsCacheTtl : Option Nat
  defaultHeaders : Bool
  deriving Repr, DecidableEq

/-- The session built by `get_session` (agent.py lines 130-149):
total timeout 30s, connect timeout 10s,
`TCPConnector(limit_per_host=CONCURRENT_REQUESTS, ttl_dns_cache=300)`,
default `Content-Type`/`User-Agent` headers. -/
def get_session_cfg : SessionCfg :=
  { timeoutTotal := some 30
    timeoutConnect := some 10
    limitPerHost := some CONCURRENT_REQUESTS
    dnsCacheTtl := some 300
    defaultHeaders := true }

/-- The session built by `init_session` (agent.py lines 560-565):
`aiohttp.ClientSession(timeout=ClientTimeout(total=30))` — default
connector, hence no per-host connection limit and no default headers. -/
def init_session_cfg : SessionCfg :=
  { timeoutTotal := some 30
    timeoutConnect := none
    limitPerHost := none
    dnsCacheTtl := none
    defaultHeaders := false }

/-- Function `get_session` reuses the global session unless it is absent or
closed (agent.py line 132: `if session is None or session.closed`). -/
def get_session (current : Option SessionCfg) (closed : Bool) : SessionCfg :=
  match current with
  | none => get_session_cfg
  | some s => if closed then get_session_cfg else s

/-- Function `init_session` has the same reuse guard (agent.py line 563) but
builds the limit-free session. -/
def init_session (current : Option SessionCfg) (closed : Bool) : SessionCfg :=
  match current with
  | none => init_session_cfg
  | some s => if closed then init_session_cfg else s

/-! ### Admission semantics of the connector limit

The only admission control in the fetch layer is the connector option
`limit_per_host`: a request to a host may start only while fewer than
`limit_per_host` requests are in flight to it (no limit when the session
has no per-host ceiling).  There is no semaphore, and the `rate_limited`
decorator defined at agent.py lines 100-127 is never applied to any
function.  We model an interleaving of request starts and finishes
against one host and track the in-flight count and its peak. -/

inductive NetAction where
  | start
  | finish
  deriving Repr, DecidableEq

/-- A start is admitted iff the in-flight count is below the limit
(always admitted when the session has no per-host limit). -/
def admits (limit : Option Nat) (inflight : Nat) : Bool :=
  match limit with
  | none => true
  | some l => inflight < l

/-- One scheduler step over (in-flight count, peak).  A start that is
not admitted blocks, i.e. leaves the state unchanged. -/
def netStep (limit : Option Nat) (st : Nat × Nat) : NetAction → Nat × Nat
  | .start =>
      if admits limit st.1 then (st.1 + 1, max st.2 (st.1 + 1)) else st
  | .finish => (st.1 - 1, st.2)

/-- Run a trace of request starts/finishes from the idle state. -/
def runTrace (limit : Option Nat) (as : List NetAction) : Nat × Nat :=
  as.foldl (netStep limit) (0, 0)

/-- Peak number of simultaneously in-flight requests along a trace. -/
def peakInflight (limit : Option Nat) (as : List NetAction) : Nat :=
  (runTrace limit as).2

lemma netStep_bounded (l : Nat) (st : Nat × Nat) (a : NetAction)
    (h1 : st.1 ≤ l) (h2 : st.2 ≤ l) :
    (netStep (some l) st a).1 ≤ l ∧ (netStep (some l) st a).2 ≤ l := by
  cases a with
  | start =>
      by_cases h : admits (some l) st.1
      · simp only [netStep, h, if_true]
        simp only [admits, decide_eq_true_eq] at h
        omega
      · simp only [netStep, h, if_false]
        exact ⟨h1, h2⟩
  | finish =>
      simp only [netStep]
      omega

lemma foldl_netStep_bounded (l : Nat) (as : List NetAction) :
    ∀ st : Nat × Nat, st.1 ≤ l → st.2 ≤ l →
      (as.foldl (netStep (some l)) st).2 ≤ l := by
  induction as with
  | nil => intro st _ h2; simpa using h2
  | cons a rest ih =>
      intro st h1 h2
      have hb := netStep_bounded l st a h1 h2
      simpa using ih (netStep (some l) st a) hb.1 hb.2

/-! ## Retry policy (tenacity decorator on `_places_search_async` and
`_places_details_async`, agent.py lines 195-200 and 230-235)

```
@retry(stop=stop_after_attempt(3),
       wait=wait_exponential(multiplier=1, min=4, max=10),
       retry=retry_if_exception_type((aiohttp.ClientError, asyncio.TimeoutError)),
       reraise=True)
```

Python exceptions reaching the decorator are modelled by `AioExc`.  The
aiohttp class hierarchy matters: `ClientResponseError` — the exception
`resp.raise_for_status()` raises for any 4xx/5xx HTTP status — and
`ContentTypeError` (raised by `resp.json()` on a malformed response)
are *subclasses* of `aiohttp.ClientError`, so
`retry_if_exception_type((aiohttp.ClientError, ...))` matches them. -/

inductive AioExc where
  /-- connection-level failures (`ClientConnectorError` etc.), subclasses of `ClientError` -/
  | clientConnectionError
  /-- class `ClientResponseError` with an HTTP status, raised by `raise_for_status`; subclass of `ClientError` -/
  | clientResponseError (status : Nat)
  /-- class `ContentTypeError`, raised by `resp.json()` on a non-JSON body; subclass of `ClientResponseError` -/
  | contentTypeError
  /-- class `asyncio.TimeoutError` -/
  | timeoutError
  /-- any exception outside the aiohttp/asyncio families (e.g. `NameError`, `ValueError`) -/
  | otherError (msg : String)
  deriving Repr, DecidableEq

/-- Predicate `isinstance(e, aiohttp.ClientError)`. -/
def isClientError : AioExc → Bool
  | .clientConnectionError => true
  | .clientResponseError _ => true
  | .contentTypeError => true
  | _ => false

/-- Predicate `isinstance(e, asyncio.TimeoutError)`. -/
def isTimeoutError : AioExc → Bool
  | .timeoutError => true
  | _ => false

/-- Predicate `retry_if_exception_type((aiohttp.ClientError, asyncio.TimeoutError))`. -/
def tenacityShouldRetry (e : AioExc) : Bool :=
  isClientError e || isTimeoutError e

/-- The tenacity loop: run attempt number `attempt` of `f`; on an
exception matching the retry predicate, and while retries remain,
run the next attempt; otherwise re-raise (`reraise=True`).  Returns the
outcome together with the number of attempts performed. -/
def retryGo {γ : Type} (f : Nat → Except AioExc γ) :
    Nat → Nat → Except AioExc γ × Nat
  | 0, attempt => (f attempt, attempt)
  | retriesLeft + 1, attempt =>
      match f attempt with
      | .ok v => (.ok v, attempt)
      | .error e =>
          if tenacityShouldRetry e then retryGo f retriesLeft (attempt + 1)
          else (.error e, attempt)

/-- With `stop_after_attempt(3)`: at most 3 attempts in total. -/
def tenacityRetry3 {γ : Type} (f : Nat → Except AioExc γ) :
    Except AioExc γ × Nat :=
  retryGo f 2 1

/-! ## Cache layer (`get_cache` / `set_cache`, agent.py lines 165-192)

The durable backend handle `redis_client` is read by both functions but
never initialised anywhere in the repository.  Modelled from the spec:
"cache backend connection string (optional; absence selects in-process
fallback)" — the handle is an optional backend which, when present, is
either reachable (a key/value store under the `dynotrip:` key prefix)
or raising on every operation.  Values are kept opaque (`α`): only
JSON-round-trippable values are stored, and `json.loads ∘ json.dumps`
is the identity on them. -/

inductive RedisClient (α : Type) where
  /-- no backend configured (`redis_client` falsy) -/
  | noBackend
  /-- backend configured and reachable, holding the given store -/
  | healthy (store : List (String × α))
  /-- backend configured but every operation raises -/
  | failing
  deriving Repr, DecidableEq

/-- Function `get_cache` (agent.py lines 165-177): empty keys or no backend
return `None`; with a backend, a raised backend exception is caught and
absorbed (`return None`).  Note the source never consults the
in-process `SimpleCache` instance, despite its own docstring
"Redis if available, otherwise in-memory": on the no-backend and
error paths it returns `None` directly. -/
def get_cache {α : Type} (rc : RedisClient α) (key : String) : Option α :=
  if key = "" then none
  else
    match rc with
    | .noBackend => none
    | .healthy store => store.lookup ("dynotrip:" ++ key)
    | .failing => none

/-- Function `set_cache` (agent.py lines 179-192): skips empty keys and `None`
values; with a backend, writes under the `dynotrip:` prefix, absorbing
backend exceptions; with no backend, does nothing (again no in-process
fallback write). -/
def set_cache {α : Type} (rc : RedisClient α) (key : String)
    (value : Option α) : RedisClient α :=
  if key = "" then rc
  else
    match value with
    | none => rc
    | some v =>
        match rc with
        | .noBackend => rc
        | .healthy store => .healthy (("dynotrip:" ++ key, v) :: store)
        | .failing => rc

/-- The two-tier read described by the spec and by the docstring of
`get_cache` itself (spec §4.1: "on any backend error ... the operation
falls back to an in-process map without propagating the backend
exception").  Stated from the words of the spec, for comparison with
`get_cache`; `fallback` is the lookup of the in-process map. -/
def get_cache_spec {α : Type} (rc : RedisClient α)
    (fallback : String → Option α) (key : String) : Option α :=
  if key = "" then none
  else
    match rc with
    | .healthy store => store.lookup ("dynotrip:" ++ key)
    | .noBackend => fallback key
    | .failing => fallback key

/-! ## Fetchers (agent.py lines 201-332)

Each fetcher is modelled by explicit state passing over the cache
handle plus a counter of upstream network calls.  The upstream is a
function from the call index to the (already JSON-decoded) payload of
the response; `none` models an empty result set ("not found").
Payloads read from the network or the cache are tested with Python
truthiness at every use site (`if cached := ...`, `if result`,
`if not found`), so falsy payloads are conflated with `none` and the
stored payloads are always truthy.  These models cover the success and
not-found paths of the fetchers; the exception paths are covered by
the retry model above. -/

/-- The Python method `str.lower()`, character by character. -/
def pyLower (s : String) : String :=
  String.mk (s.toList.map Char.toLower)

/-- The Python method `str.strip()`: drop whitespace from both ends. -/
def pyStrip (s : String) : String :=
  String.mk
    (((s.toList.dropWhile Char.isWhitespace).reverse.dropWhile
        Char.isWhitespace).reverse)

/-- The normalisation `q.lower().strip()` used for cache keys. -/
def pyLowerStrip (s : String) : String :=
  pyStrip (pyLower s)

structure FetchSt (α : Type) where
  rc : RedisClient α
  networkCalls : Nat
  deriving Repr, DecidableEq

/-- Function `_places_search_async` (agent.py lines 201-228),
success/not-found paths: cache key
`places:search:{text_query.lower().strip()}`; on a cache hit return
the cached payload; on a miss POST to `:searchText` (one network
call), take the first element of the `places` list (or `None` when the
list is absent or empty), cache it only if truthy, and return it. -/
def places_search_async {α : Type} (upstream : Nat → Option α)
    (text_query : String) (st : FetchSt α) : Option α × FetchSt α :=
  let cache_key := "places:search:" ++ pyLowerStrip text_query
  match get_cache st.rc cache_key with
  | some v => (some v, st)
  | none =>
      let resp := upstream st.networkCalls
      let st' : FetchSt α := { st with networkCalls := st.networkCalls + 1 }
      match resp with
      | some place =>
          (some place, { st' with rc := set_cache st'.rc cache_key (some place) })
      | none => (none, st')

/-- Function `_places_details_async` (agent.py lines 236-257), success path:
cache key `places:details:{place_id}`; on a miss GET the place (one
network call), cache the decoded body (`set_cache` skips `None`
values), return it. -/
def places_details_async {α : Type} (upstream : Nat → Option α)
    (place_id : String) (st : FetchSt α) : Option α × FetchSt α :=
  let cache_key := "places:details:" ++ place_id
  match get_cache st.rc cache_key with
  | some v => (some v, st)
  | none =>
      let resp := upstream st.networkCalls
      let st' : FetchSt α := { st with networkCalls := st.networkCalls + 1 }
      (resp, { st' with rc := set_cache st'.rc cache_key resp })

/-- Function `_geocode_address_async` (agent.py lines 259-289): empty addresses
return `None` immediately; cache key `geocode:{address.lower().strip()}`;
on a miss GET the geocode endpoint (one network call); only when the
response has a non-empty `results` list whose first entry carries a
`geometry.location` is the `{lat, lng}` record cached and returned;
otherwise `None` is returned and nothing is cached.  `upstream` yields
that location record, `none` when the results are empty/locationless. -/
def geocode_address_async {α : Type} (upstream : Nat → Option α)
    (address : String) (st : FetchSt α) : Option α × FetchSt α :=
  if address = "" then (none, st)
  else
    let cache_key := "geocode:" ++ pyLowerStrip address
    match get_cache st.rc cache_key with
    | some v => (some v, st)
    | none =>
        let resp := upstream st.networkCalls
        let st' : FetchSt α := { st with networkCalls := st.networkCalls + 1 }
        match resp with
        | some loc =>
            (some loc, { st' with rc := set_cache st'.rc cache_key (some loc) })
        | none => (none, st')

/-! ## Place-id extraction and the `place_details_async` tool
(agent.py lines 334-437) -/

/-- The fields of a place-search payload that the id extraction reads. -/
structure PlacePayload where
  /-- field `found.get("id")` -/
  id : Option String
  /-- field `found.get("name", "")`, the resource name, e.g. `places/ChIJ...` -/
  nameField : Option String
  deriving Repr, DecidableEq

/-- The Python expression `s.split("/", 1)[1]`: everything after the
*first* slash (`none` when the string holds no slash). -/
def afterFirstSlash : List Char → Option (List Char)
  | [] => none
  | c :: cs => if c = '/' then some cs else afterFirstSlash cs

/-- Place-id extraction (agent.py lines 355-363):
`place_id = found.get("id")`; if falsy, read `found.get("name", "")`
and, when it starts with the literal `places/`, take
`name_field.split("/", 1)[1]`; a still-falsy result means extraction
failed (`none`). -/
def extractPlaceId (idField : Option String) (nameField : Option String) :
    Option String :=
  let direct : Option String :=
    match idField with
    | some s => if s = "" then none else some s
    | none => none
  match direct with
  | some pid => some pid
  | none =>
      let nf := (nameField.getD "").toList
      if "places/".toList.isPrefixOf nf then
        match afterFirstSlash nf with
        | some rest => if rest = [] then none else some (String.mk rest)
        | none => none
      else none

/-- Result of the `place_details_async` tool: either the structured
error dict `{"error": msg}` or the normalised details record.  The
normalisation of the success payload (photos/reviews/rating coercion,
agent.py lines 370-430) is carried opaquely as the details payload
`α`; no claim inspects those fields. -/
inductive PDResult (α : Type) where
  | errorRes (msg : String)
  | okRes (details : α)
  deriving Repr, DecidableEq

/-- State threaded through `place_details_async`: the cache handle of
the search fetcher (place payloads), the cache handle of the details
fetcher, and the upstream network-call counter. -/
structure PDSt (α : Type) where
  rcSearch : RedisClient PlacePayload
  rcDetails : RedisClient α
  networkCalls : Nat
  deriving Repr, DecidableEq

/-- The `place_details_async` tool (agent.py lines 334-437):
guard on `GOOGLE_MAPS_API_KEY` (`os.getenv` yields `None` when unset;
`if not api_key` also catches the empty string), then guard on an
empty query; only then acquire the session and run search → id
extraction → details, returning the structured error dicts of the
source at each failure point.  `apiKey = none` models the unset
environment variable. -/
def place_details_async {α : Type} (apiKey : Option String) (query : String)
    (upS : Nat → Option PlacePayload) (upD : Nat → Option α)
    (st : PDSt α) : PDResult α × PDSt α :=
  match apiKey with
  | none => (.errorRes "GOOGLE_MAPS_API_KEY not configured", st)
  | some k =>
      if k = "" then (.errorRes "GOOGLE_MAPS_API_KEY not configured", st)
      else if query = "" then (.errorRes "query cannot be empty", st)
      else
        match places_search_async upS query ⟨st.rcSearch, st.networkCalls⟩ with
        | (none, s1) => (.errorRes "Place not found", ⟨s1.rc, st.rcDetails, s1.networkCalls⟩)
        | (some found, s1) =>
            match extractPlaceId found.id found.nameField with
            | none => (.errorRes "Could not extract place ID", ⟨s1.rc, st.rcDetails, s1.networkCalls⟩)
            | some pid =>
                match places_details_async upD pid ⟨st.rcDetails, s1.networkCalls⟩ with
                | (none, s2) => (.errorRes "Could not fetch place details", ⟨s1.rc, s2.rc, s2.networkCalls⟩)
                | (some d, s2) => (.okRes d, ⟨s1.rc, s2.rc, s2.networkCalls⟩)

/-! ## `SimpleCache` (agent.py lines 45-60)

The in-process cache holds two dicts, `_cache` and `_expiry`, modelled
as finite update functions; `time.time()` is a rational instant passed
explicitly to each operation. -/

structure SimpleCacheSt (α : Type) where
  cacheMap : String → Option α
  expiryMap : String → Option ℚ

/-- A `SimpleCache` with empty `_cache` and `_expiry`. -/
def SimpleCache.empty (α : Type) : SimpleCacheSt α :=
  ⟨fun _ => none, fun _ => none⟩

/-- Method `SimpleCache.get` (agent.py lines 50-55):
`if key in self._expiry and self._expiry[key] < time.time():` pop the
entry from both dicts and return `None`; otherwise
`return self._cache.get(key)`. -/
def SimpleCache.get {α : Type} (st : SimpleCacheSt α) (now : ℚ)
    (key : String) : Option α × SimpleCacheSt α :=
  match st.expiryMap key with
  | some e =>
      if e < now then
        (none,
         ⟨fun k => if k = key then none else st.cacheMap k,
          fun k => if k = key then none else st.expiryMap k⟩)
      else (st.cacheMap key, st)
  | none => (st.cacheMap key, st)

/-- Method `SimpleCache.set` (agent.py lines 57-60):
`self._cache[key] = value; if ex is not None: self._expiry[key] = time.time() + ex`.
Note that `ex = None` leaves any previously recorded expiry for `key`
in place. -/
def SimpleCache.set {α : Type} (st : SimpleCacheSt α) (now : ℚ)
    (key : String) (value : α) (ex : Option ℚ) : SimpleCacheSt α :=
  ⟨fun k => if k = key then some value else st.cacheMap k,
   match ex with
   | some x => fun k => if k = key then some (now + x) else st.expiryMap k
   | none => st.expiryMap⟩

/-! ## Batch orchestrator (`batch_place_details`, agent.py lines 463-558)

The per-item fetch (`place_details_async`) is abstracted as a function
from query to outcome; an exceptional outcome (`Except.error`) is what
`asyncio.gather(..., return_exceptions=True)` hands back and is turned
into the error-marker dict `{"error": str(result), "status": "error"}`.
Chunking in groups of 10 with a 0.5 s pause between chunks only affects
timing: the result dict receives, chunk after chunk, one entry per
unique query in dedup order, which the association list reproduces. -/

/-- The dedup loop of agent.py lines 479-484:
`if q and q not in seen: seen.add(q); unique_queries.append(q)` —
exact string matching, empty strings dropped. -/
def dedupGo (acc : List String) : List String → List String
  | [] => acc
  | q :: rest =>
      if q ≠ "" ∧ q ∉ acc then dedupGo (acc ++ [q]) rest
      else dedupGo acc rest

/-- The list `unique_queries` as built by `batch_place_details`. -/
def dedupQueries (queries : List String) : List String :=
  dedupGo [] queries

/-- Key sequence of the dict comprehension
`{q: {...} for q in queries}` (agent.py line 476): exact dedup keeping
first occurrences, empty strings included. -/
def dedupKeys (acc : List String) : List String → List String
  | [] => acc
  | q :: rest =>
      if q ∉ acc then dedupKeys (acc ++ [q]) rest
      else dedupKeys acc rest

/-- One entry of the batch result dict. -/
inductive BatchEntry (α : Type) where
  /-- a successfully returned details dict -/
  | ok (v : α)
  /-- the error marker `{"error": msg, "status": "error"}` -/
  | errMark (msg : String)
  deriving Repr, DecidableEq

/-- How `batch_place_details` records one gathered outcome
(agent.py lines 510-513): an exception becomes the error marker,
anything else is stored as returned. -/
def entryOfOutcome {α : Type} : Except String α → BatchEntry α
  | .ok v => .ok v
  | .error e => .errMark e

/-- Tool `batch_place_details` (agent.py lines 463-558) as an association
list in insertion order: empty input short-circuits to `{}`; a failed
`init_session` yields the error mapping over all input queries; the
normal path records, for each deduplicated query, the outcome of its
own `place_details_async` call. -/
def batch_place_details {α : Type} (initOk : Bool)
    (fetch : String → Except String α) (queries : List String) :
    List (String × BatchEntry α) :=
  if queries = [] then []
  else if initOk = false then
    (dedupKeys [] queries).map
      (fun q => (q, .errMark "Failed to initialize session"))
  else
    (dedupQueries queries).map (fun q => (q, entryOfOutcome (fetch q)))

/-! ## Helper lemmas -/

lemma dedupGo_nodup (l : List String) :
    ∀ acc : List String, acc.Nodup → (dedupGo acc l).Nodup := by
  induction l with
  | nil => intro acc h; simpa [dedupGo] using h
  | cons q rest ih =>
      intro acc h
      by_cases hq : q ≠ "" ∧ q ∉ acc
      · rw [dedupGo, if_pos hq]
        exact ih (acc ++ [q]) (by simp [List.nodup_append, h, hq.2])
      · rw [dedupGo, if_neg hq]
        exact ih acc h

lemma dedupGo_mem (l : List String) :
    ∀ (acc : List String) (x : String),
      x ∈ dedupGo acc l ↔ x ∈ acc ∨ (x ∈ l ∧ x ≠ "") := by
  induction l with
  | nil => intro acc x; simp [dedupGo]
  | cons q rest ih =>
      intro acc x
      by_cases hq : q ≠ "" ∧ q ∉ acc
      · rw [dedupGo, if_pos hq, ih]
        constructor
        · rintro (hx | hx)
          · rcases List.mem_append.1 hx with hx | hx
            · exact Or.inl hx
            · simp only [List.mem_singleton] at hx
              subst hx
              exact Or.inr ⟨List.mem_cons_self _ _, hq.1⟩
          · exact Or.inr ⟨List.mem_cons_of_mem _ hx.1, hx.2⟩
        · rintro (hx | ⟨hx, hne⟩)
          · exact Or.inl (List.mem_append.2 (Or.inl hx))
          · rcases List.mem_cons.1 hx with rfl | hx
            · exact Or.inl (List.mem_append.2 (Or.inr (by simp)))
            · exact Or.inr ⟨hx, hne⟩
      · rw [dedupGo, if_neg hq, ih]
        push_neg at hq
        constructor
        · rintro (hx | hx)
          · exact Or.inl hx
          · exact Or.inr ⟨List.mem_cons_of_mem _ hx.1, hx.2⟩
        · rintro (hx | ⟨hx, hne⟩)
          · exact Or.inl hx
          · rcases List.mem_cons.1 hx with rfl | hx
            · by_cases hqe : x = ""
              · exact absurd hqe hne
              · exact Or.inl (hq hqe)
            · exact Or.inr ⟨hx, hne⟩

lemma dedupGo_append_sublist (l : List String) :
    ∀ acc : List String, ∃ t : List String,
      dedupGo acc l = acc ++ t ∧ t.Sublist l := by
  induction l with
  | nil => intro acc; exact ⟨[], by simp [dedupGo]⟩
  | cons q rest ih =>
      intro acc
      by_cases hq : q ≠ "" ∧ q ∉ acc
      · rw [dedupGo, if_pos hq]
        obtain ⟨t, ht, hs⟩ := ih (acc ++ [q])
        exact ⟨q :: t, by simpa using ht, List.Sublist.cons₂ q hs⟩
      · rw [dedupGo, if_neg hq]
        obtain ⟨t, ht, hs⟩ := ih acc
        exact ⟨t, ht, hs.cons q⟩

lemma lookup_map_self {α : Type} (g : String → α) (l : List String) (q : String)
    (h : q ∈ l) :
    List.lookup q (l.map (fun x => (x, g x))) = some (g q) := by
  induction l with
  | nil => cases h
  | cons x rest ih =>
      rcases List.mem_cons.1 h with rfl | h
      · simp [List.lookup]
      · by_cases hxq : q = x
        · subst hxq; simp [List.lookup]
        · have hb : (q == x) = false := beq_false_of_ne hxq
          simp only [List.map_cons, List.lookup, hb]
          exact ih h

/-! ## Claim theorems -/

/-- C1, counterexample.  The claim states that issuing concurrent
fetcher calls never allows more than `CONCURRENT_REQUESTS = 10`
simultaneous outbound calls, enforced by a single shared governor.
The code has no such governor: `batch_place_details` installs the
session built by `init_session`, whose default connector has no
per-host limit, and under it a concrete trace of 11 request starts
reaches 11 simultaneous in-flight calls — more than 10, at well below
the 50 calls of the claimed scenario. -/
theorem C1_counterexample :
    peakInflight init_session_cfg.limitPerHost
      (List.replicate 11 NetAction.start) = 11 ∧
    CONCURRENT_REQUESTS < 11 := by
  constructor
  · decide
  · decide

/-- C1, amended.  Sessions built by `get_session` do bound in-flight
requests per host: under their connector limit
(`limit_per_host = CONCURRENT_REQUESTS`) every trace keeps the peak
in-flight count at or below `CONCURRENT_REQUESTS`.  But the bound is
per host and per session, not a process-wide governor: the session
built by `init_session` — the one `batch_place_details` installs
before fetching — has no limit, and a trace of 11 starts under it
reaches a peak of 11. -/
theorem C1_amended_bounds :
    (∀ as : List NetAction,
       peakInflight get_session_cfg.limitPerHost as ≤ CONCURRENT_REQUESTS) ∧
    peakInflight init_session_cfg.limitPerHost
      (List.replicate 11 NetAction.start) = 11 := by
  constructor
  · intro as
    have h := foldl_netStep_bounded CONCURRENT_REQUESTS as (0, 0)
      (by simp) (by simp)
    simpa [peakInflight, runTrace, get_session_cfg] using h
  · decide

/-- C2, counterexample.  The claim states that a 4xx-style application
error is attempted exactly once.  In the code, `resp.raise_for_status()`
turns a 4xx response into `aiohttp.ClientResponseError`, a subclass of
`aiohttp.ClientError`, which the tenacity predicate
`retry_if_exception_type((aiohttp.ClientError, asyncio.TimeoutError))`
matches — so a call that always yields HTTP 404 is attempted 3 times,
not once. -/
theorem C2_counterexample :
    tenacityRetry3
        (fun _ => (Except.error (AioExc.clientResponseError 404) : Except AioExc Unit))
      = (Except.error (AioExc.clientResponseError 404), 3) ∧
    (3 : Nat) ≠ 1 := by
  constructor
  · rfl
  · decide

/-- C2, amended.  For a call wrapped by the tenacity retry policy:
if every attempt raises an exception the policy classifies as
retryable (`aiohttp.ClientError` — which includes the HTTP-status and
content-type errors — or `asyncio.TimeoutError`), the call is
attempted exactly 3 times and the final error propagates; if the
exception is of any other type, the call is attempted exactly once and
the error propagates immediately. -/
theorem C2_retry_semantics {γ : Type} (f : Nat → Except AioExc γ)
    (e : AioExc) (h : ∀ n, f n = Except.error e) :
    (tenacityShouldRetry e = true → tenacityRetry3 f = (Except.error e, 3)) ∧
    (tenacityShouldRetry e = false → tenacityRetry3 f = (Except.error e, 1)) := by
  constructor
  · intro hr
    simp [tenacityRetry3, retryGo, h, hr]
  · intro hr
    simp [tenacityRetry3, retryGo, h, hr]

/-- Witness for `C2_retry_semantics`: an always-timing-out call is
attempted 3 times; an always-raising `ValueError`-like call is
attempted once. -/
theorem C2_retry_semantics_witness :
    tenacityRetry3 (fun _ => (Except.error AioExc.timeoutError : Except AioExc Unit))
      = (Except.error AioExc.timeoutError, 3) ∧
    tenacityRetry3 (fun _ => (Except.error (AioExc.otherError "ValueError") : Except AioExc Unit))
      = (Except.error (AioExc.otherError "ValueError"), 1) := by
  constructor
  · exact (C2_retry_semantics _ AioExc.timeoutError (fun _ => rfl)).1 rfl
  · exact (C2_retry_semantics _ (AioExc.otherError "ValueError") (fun _ => rfl)).2 rfl

/-- C3, code evaluation at the failing input.  The claim (and the
docstring of `get_cache` itself, "Redis if available, otherwise
in-memory") requires backend errors to fall back to the in-process
map.  With a configured-but-erroring backend and an in-process map
holding `"k" ↦ 7`: the source `get_cache` absorbs the backend
exception but returns `none` without consulting the in-process map,
whereas the two-tier read `get_cache_spec` described by the claim
returns `some 7`; the error is still observationally a miss for the
fetcher, which proceeds to the network call (third conjunct). -/
theorem C3_cache_error_eval :
    get_cache (RedisClient.failing : RedisClient Nat) "k" = none ∧
    get_cache_spec (RedisClient.failing : RedisClient Nat)
      (fun k => if k = "k" then some 7 else none) "k" = some 7 ∧
    (places_search_async (fun _ => some "v") "q"
      (⟨RedisClient.failing, 0⟩ : FetchSt String)).2.networkCalls = 1 := by
  refine ⟨rfl, by decide, by decide⟩

/-- C4, code evaluation at the failing input.  The claim requires that
two calls with the same query within the TTL window issue exactly one
upstream call.  With no cache backend configured (`redis_client`
falsy/uninitialised — the default, since nothing in the repository
ever sets it), `get_cache` always returns `None` and `set_cache` is a
no-op, so two identical searches issue two upstream calls (first
conjunct).  Only with a configured, reachable backend does the second
call hit the cache — one upstream call, second result served from the
cache (second and third conjuncts). -/
theorem C4_no_fallback_eval :
    (places_search_async (fun _ => some "res") "x"
        ((places_search_async (fun _ => some "res") "x"
          (⟨RedisClient.noBackend, 0⟩ : FetchSt String)).2)).2.networkCalls = 2 ∧
    (places_search_async (fun _ => some "res") "x"
        ((places_search_async (fun _ => some "res") "x"
          (⟨RedisClient.healthy [], 0⟩ : FetchSt String)).2)).2.networkCalls = 1 ∧
    (places_search_async (fun _ => some "res") "x"
        ((places_search_async (fun _ => some "res") "x"
          (⟨RedisClient.healthy [], 0⟩ : FetchSt String)).2)).1 = some "res" := by
  refine ⟨by decide, by decide, by decide⟩

/-- C5, counterexample.  The claim states that
`batchPlaceDetails(["A","b","A"," B "])` returns exactly 2 keys,
`["A","b"]`, under case/whitespace-insensitive normalisation.  The
dedup loop of `batch_place_details` compares raw strings
(`if q and q not in seen`), so `" B "` is not identified with `"b"`
and the result mapping has 3 keys: `["A", "b", " B "]`. -/
theorem C5_counterexample :
    ((batch_place_details true
        (fun q => (Except.ok q : Except String String))
        ["A", "b", "A", " B "]).map Prod.fst = ["A", "b", " B "]) ∧
    ((batch_place_details true
        (fun q => (Except.ok q : Except String String))
        ["A", "b", "A", " B "]).map Prod.fst ≠ ["A", "b"]) := by
  refine ⟨by decide, by decide⟩

/-- C5, amended.  `batch_place_details` deduplicates by *exact* string
equality (case- and whitespace-sensitive), dropping empty strings, and
preserves first-occurrence order: the key sequence of the result
mapping equals `dedupQueries`, which is duplicate-free, a subsequence
of the input (hence in first-occurrence input order, original spelling
preserved), and contains exactly the distinct non-empty input queries;
on `["A","b","A"," B "]` it yields the 3 keys `["A","b"," B "]`. -/
theorem C5_dedup_exact (f : String → Except String String)
    (qs : List String) :
    ((batch_place_details true f qs).map Prod.fst = dedupQueries qs) ∧
    (dedupQueries qs).Nodup ∧
    (dedupQueries qs).Sublist qs ∧
    (∀ q, q ∈ dedupQueries qs ↔ q ∈ qs ∧ q ≠ "") ∧
    dedupQueries ["A", "b", "A", " B "] = ["A", "b", " B "] := by
  refine ⟨?_, ?_, ?_, ?_, by decide⟩
  · by_cases hqs : qs = []
    · subst hqs; simp [batch_place_details, dedupQueries, dedupGo]
    · simp [batch_place_details, hqs, List.map_map, Function.comp_def]
  · exact dedupGo_nodup qs [] (by simp)
  · obtain ⟨t, ht, hs⟩ := dedupGo_append_sublist qs []
    simpa [dedupQueries, ht] using hs
  · intro q
    simpa [dedupQueries] using dedupGo_mem qs [] q

/-- C6.  In `batch_place_details` (with a successfully initialised
session), every deduplicated query receives exactly the entry
determined by its own `place_details_async` outcome: an exceptional
outcome becomes the error-marker entry and leaves all sibling entries
untouched, and the operation returns a mapping whose keys are exactly
the deduplicated queries — no exception escapes. -/
theorem C6_batch_isolation {α : Type} (fetch : String → Except String α)
    (qs : List String) (q : String) (h : q ∈ dedupQueries qs) :
    List.lookup q (batch_place_details true fetch qs)
      = some (entryOfOutcome (fetch q)) ∧
    (batch_place_details true fetch qs).map Prod.fst = dedupQueries qs := by
  have hqs : qs ≠ [] := by
    rintro rfl
    simp [dedupQueries, dedupGo] at h
  constructor
  · simp only [batch_place_details, hqs, if_false, if_neg, Bool.true_eq_false]
    simpa using lookup_map_self (fun x => entryOfOutcome (fetch x)) _ q h
  · simp [batch_place_details, hqs, List.map_map, Function.comp_def]

/-- Witness for `C6_batch_isolation`: a batch of 10 queries where the
fetch of item 5 raises; item 5 gets the error marker while items 4 and
6 keep their successful results. -/
theorem C6_batch_isolation_witness :
    List.lookup "q5"
        (batch_place_details true
          (fun q => if q = "q5" then (Except.error "boom" : Except String String)
                    else Except.ok q)
          ["q1", "q2", "q3", "q4", "q5", "q6", "q7", "q8", "q9", "q10"])
      = some (BatchEntry.errMark "boom") ∧
    List.lookup "q4"
        (batch_place_details true
          (fun q => if q = "q5" then (Except.error "boom" : Except String String)
                    else Except.ok q)
          ["q1", "q2", "q3", "q4", "q5", "q6", "q7", "q8", "q9", "q10"])
      = some (BatchEntry.ok "q4") ∧
    List.lookup "q6"
        (batch_place_details true
          (fun q => if q = "q5" then (Except.error "boom" : Except String String)
                    else Except.ok q)
          ["q1", "q2", "q3", "q4", "q5", "q6", "q7", "q8", "q9", "q10"])
      = some (BatchEntry.ok "q6") := by
  refine ⟨?_, ?_, ?_⟩
  · have h := (C6_batch_isolation
      (fun q => if q = "q5" then (Except.error "boom" : Except String String)
                else Except.ok q)
      ["q1", "q2", "q3", "q4", "q5", "q6", "q7", "q8", "q9", "q10"]
      "q5" (by decide)).1
    simpa using h
  · have h := (C6_batch_isolation
      (fun q => if q = "q5" then (Except.error "boom" : Except String String)
                else Except.ok q)
      ["q1", "q2", "q3", "q4", "q5", "q6", "q7", "q8", "q9", "q10"]
      "q4" (by decide)).1
    simpa using h
  · have h := (C6_batch_isolation
      (fun q => if q = "q5" then (Except.error "boom" : Except String String)
                else Except.ok q)
      ["q1", "q2", "q3", "q4", "q5", "q6", "q7", "q8", "q9", "q10"]
      "q6" (by decide)).1
    simpa using h

/-- C7.  For the place-search and geocode fetchers: when the upstream
returns an empty result set, the fetcher returns the explicit
not-found signal (`none`, which the tool surface converts to the
`Place not found` error) and writes nothing to the cache, so an
immediate retry of the same query performs a second real upstream
call.  Stated for any initial cache state on which the query is a
miss. -/
theorem C7_not_found_uncached {α : Type} (upS upG : Nat → Option α)
    (q addr : String) (st stG : FetchSt α)
    (hS : ∀ n, upS n = none) (hG : ∀ n, upG n = none)
    (hmiss : get_cache st.rc ("places:search:" ++ pyLowerStrip q) = none)
    (haddr : addr ≠ "")
    (hmissG : get_cache stG.rc ("geocode:" ++ pyLowerStrip addr) = none) :
    ((places_search_async upS q st).1 = none ∧
     (places_search_async upS q st).2.rc = st.rc ∧
     (places_search_async upS q st).2.networkCalls = st.networkCalls + 1 ∧
     (places_search_async upS q
        ((places_search_async upS q st).2)).2.networkCalls
       = st.networkCalls + 2) ∧
    ((geocode_address_async upG addr stG).1 = none ∧
     (geocode_address_async upG addr stG).2.rc = stG.rc ∧
     (geocode_address_async upG addr stG).2.networkCalls
       = stG.networkCalls + 1 ∧
     (geocode_address_async upG addr
        ((geocode_address_async upG addr stG).2)).2.networkCalls
       = stG.networkCalls + 2) := by
  have h1 : places_search_async upS q st
      = (none, { st with networkCalls := st.networkCalls + 1 }) := by
    simp [places_search_async, hmiss, hS]
  have h2 : places_search_async upS q
      ({ st with networkCalls := st.networkCalls + 1 } : FetchSt α)
      = (none, { st with networkCalls := st.networkCalls + 2 }) := by
    have hmiss' :
        get_cache ({ st with networkCalls := st.networkCalls + 1 } :
          FetchSt α).rc ("places:search:" ++ pyLowerStrip q) = none := hmiss
    simp [places_search_async, hmiss', hS]
  have g1 : geocode_address_async upG addr stG
      = (none, { stG with networkCalls := stG.networkCalls + 1 }) := by
    simp [geocode_address_async, haddr, hmissG, hG]
  have g2 : geocode_address_async upG addr
      ({ stG with networkCalls := stG.networkCalls + 1 } : FetchSt α)
      = (none, { stG with networkCalls := stG.networkCalls + 2 }) := by
    have hmissG' :
        get_cache ({ stG with networkCalls := stG.networkCalls + 1 } :
          FetchSt α).rc ("geocode:" ++ pyLowerStrip addr) = none := hmissG
    simp [geocode_address_async, haddr, hmissG', hG]
  refine ⟨⟨?_, ?_, ?_, ?_⟩, ⟨?_, ?_, ?_, ?_⟩⟩
  · rw [h1]
  · rw [h1]
  · rw [h1]
  · rw [h1, h2]
  · rw [g1]
  · rw [g1]
  · rw [g1]
  · rw [g1, g2]

/-- Witness for `C7_not_found_uncached`: a concrete empty-result
search for `x` and geocode for `y` against a reachable empty backend —
no cache write, one upstream call each, and a second upstream call on
immediate retry. -/
theorem C7_not_found_uncached_witness :
    ((places_search_async (fun _ => (none : Option String)) "x"
        ⟨RedisClient.healthy [], 0⟩).1 = none ∧
     (places_search_async (fun _ => (none : Option String)) "x"
        ⟨RedisClient.healthy [], 0⟩).2.rc = RedisClient.healthy [] ∧
     (places_search_async (fun _ => (none : Option String)) "x"
        ⟨RedisClient.healthy [], 0⟩).2.networkCalls = 1 ∧
     (places_search_async (fun _ => (none : Option String)) "x"
        ((places_search_async (fun _ => (none : Option String)) "x"
          ⟨RedisClient.healthy [], 0⟩).2)).2.networkCalls = 2) ∧
    ((geocode_address_async (fun _ => (none : Option String)) "y"
        ⟨RedisClient.healthy [], 0⟩).1 = none ∧
     (geocode_address_async (fun _ => (none : Option String)) "y"
        ⟨RedisClient.healthy [], 0⟩).2.rc = RedisClient.healthy [] ∧
     (geocode_address_async (fun _ => (none : Option String)) "y"
        ⟨RedisClient.healthy [], 0⟩).2.networkCalls = 1 ∧
     (geocode_address_async (fun _ => (none : Option String)) "y"
        ((geocode_address_async (fun _ => (none : Option String)) "y"
          ⟨RedisClient.healthy [], 0⟩).2)).2.networkCalls = 2) := by
  have h := C7_not_found_uncached (α := String)
    (fun _ => none) (fun _ => none) "x" "y"
    ⟨RedisClient.healthy [], 0⟩ ⟨RedisClient.healthy [], 0⟩
    (fun _ => rfl) (fun _ => rfl) (by decide) (by decide) (by decide)
  simpa using h

/-- C8, counterexample.  The claim states that after `set(k, v, none)`
the entry never expires until overwritten.  `SimpleCache.set` with
`ex = None` does not clear a previously recorded expiry: write
`set("k", 1, ex=5)` at time 0, then `set("k", 2, ex=None)` at time 1
with no further writes — the claim says `get("k")` returns `2` at
every later time, but at time 10 the stale expiry `0 + 5 < 10` fires
and `get` returns absent. -/
theorem C8_counterexample :
    (SimpleCache.get
        (SimpleCache.set
          (SimpleCache.set (SimpleCache.empty ℕ) 0 "k" 1 (some 5))
          1 "k" 2 none)
        10 "k").1 = none := by
  simp [SimpleCache.get, SimpleCache.set, SimpleCache.empty,
    show (5 : ℚ) < 10 by norm_num]

/-- C8, amended.  For `SimpleCache`: after `set(k, v, ex = T)` at time
`t0`, `get(k)` returns `v` at every time strictly before `t0 + T` and
returns absent at every time strictly after `t0 + T`, the expired read
also evicting the entry from both internal dicts; and after
`set(k, v, ex = None)` the entry never expires — provided no earlier
write left a pending expiry recorded for `k` (with such a stale
expiry, the no-TTL entry can still expire, as the counterexample
shows). -/
theorem C8_ttl_semantics {α : Type} (st : SimpleCacheSt α) (t0 : ℚ)
    (k : String) (v : α) (T : ℚ) :
    (∀ r : ℚ, r < t0 + T →
       (SimpleCache.get (SimpleCache.set st t0 k v (some T)) r k).1 = some v) ∧
    (∀ r : ℚ, t0 + T < r →
       (SimpleCache.get (SimpleCache.set st t0 k v (some T)) r k).1 = none ∧
       (SimpleCache.get (SimpleCache.set st t0 k v (some T)) r k).2.cacheMap k
         = none ∧
       (SimpleCache.get (SimpleCache.set st t0 k v (some T)) r k).2.expiryMap k
         = none) ∧
    (st.expiryMap k = none → ∀ r : ℚ,
       (SimpleCache.get (SimpleCache.set st t0 k v none) r k).1 = some v) := by
  refine ⟨?_, ?_, ?_⟩
  · intro r hr
    have hn : ¬ (t0 + T < r) := not_lt.2 hr.le
    simp [SimpleCache.get, SimpleCache.set, hn]
  · intro r hr
    simp [SimpleCache.get, SimpleCache.set, hr]
  · intro hexp r
    simp [SimpleCache.get, SimpleCache.set, hexp]

/-- Witness for `C8_ttl_semantics`: write `7` under `"k"` at time 0
with TTL 5 — present at time 3, absent at time 6; written with no TTL
into an empty cache, still present at time 100. -/
theorem C8_ttl_semantics_witness :
    (SimpleCache.get
        (SimpleCache.set (SimpleCache.empty ℕ) 0 "k" 7 (some 5)) 3 "k").1
      = some 7 ∧
    (SimpleCache.get
        (SimpleCache.set (SimpleCache.empty ℕ) 0 "k" 7 (some 5)) 6 "k").1
      = none ∧
    (SimpleCache.get
        (SimpleCache.set (SimpleCache.empty ℕ) 0 "k" 7 none) 100 "k").1
      = some 7 := by
  have h := C8_ttl_semantics (SimpleCache.empty ℕ) 0 "k" 7 5
  refine ⟨h.1 3 (by norm_num), (h.2.1 6 (by norm_num)).1, ?_⟩
  have h2 := C8_ttl_semantics (SimpleCache.empty ℕ) 0 "k" 7 5
  exact h2.2.2 rfl 100

/-- The trailing segment of a resource name: everything after the
*last* slash. -/
def lastSegment (cs : List Char) : List Char :=
  (cs.reverse.takeWhile (fun c => ¬ c = '/')).reverse

/-- The extraction described by the claim and spec §4.5 ("a place
identifier may arrive either as a direct id field or embedded in a
resource-name field of the form `<collection>/<id>`; the Fetcher must
extract the trailing segment in the latter case").  Stated from the
words of the claim, for comparison with `extractPlaceId`: any
collection is accepted and the trailing segment is taken. -/
def extractPlaceId_spec (idField : Option String)
    (nameField : Option String) : Option String :=
  match idField with
  | some s => if s = "" then none else some s
  | none =>
      let nf := (nameField.getD "").toList
      if '/' ∈ nf then
        if lastSegment nf = [] then none else some (String.mk (lastSegment nf))
      else none

/-- C9, counterexample.  The code accepts only the literal collection
`places/` and takes everything after the *first* slash, while the
claim asks for the trailing segment of any `<collection>/<id>` name:
on `venues/xyz` the code fails to extract (the claim extracts `xyz`),
and on `places/a/b` the code extracts `a/b` (the claim extracts the
trailing segment `b`). -/
theorem C9_counterexample :
    extractPlaceId none (some "venues/xyz") = none ∧
    extractPlaceId_spec none (some "venues/xyz") = some "xyz" ∧
    extractPlaceId none (some "places/a/b") = some "a/b" ∧
    extractPlaceId_spec none (some "places/a/b") = some "b" := by
  refine ⟨by decide, by decide, by decide, by decide⟩

/-- C9, amended.  The place-details flow extracts the place identifier
from the direct id field when it is non-empty; otherwise, when the
resource-name field starts with the literal `places/`, it takes
everything after the *first* slash (not the trailing segment, and no
other collection is recognised); when both strategies fail,
`place_details_async` returns the structured error
`Could not extract place ID` rather than raising. -/
theorem C9_extraction :
    (∀ i : String, i ≠ "" → ∀ nf : Option String,
       extractPlaceId (some i) nf = some i) ∧
    (∀ rest : List Char, rest ≠ [] →
       extractPlaceId none (some (String.mk ("places/".toList ++ rest)))
         = some (String.mk rest)) ∧
    (∀ (found : PlacePayload) (k q : String) (upD : Nat → Option Nat)
       (st : PDSt Nat),
       k ≠ "" → q ≠ "" →
       get_cache st.rcSearch ("places:search:" ++ pyLowerStrip q) = none →
       extractPlaceId found.id found.nameField = none →
       (place_details_async (some k) q (fun _ => some found) upD st).1
         = PDResult.errorRes "Could not extract place ID") := by
  refine ⟨?_, ?_, ?_⟩
  · intro i hi nf
    simp [extractPlaceId, hi]
  · intro rest hrest
    simp [extractPlaceId, afterFirstSlash, List.isPrefixOf, hrest]
  · intro found k q upD st hk hq hmiss hext
    have h1 : places_search_async (fun _ => some found) q
        (⟨st.rcSearch, st.networkCalls⟩ : FetchSt PlacePayload)
        = (some found,
           ⟨set_cache st.rcSearch ("places:search:" ++ pyLowerStrip q)
              (some found),
            st.networkCalls + 1⟩) := by
      simp [places_search_async, hmiss]
    simp [place_details_async, hk, hq, h1, hext]

/-- Witness for `C9_extraction`: a non-empty direct id wins; a
`places/`-prefixed name yields the remainder after the first slash;
and a payload with neither a direct id nor a recognised name makes the
tool return the structured extraction error. -/
theorem C9_extraction_witness :
    extractPlaceId (some "abc") (some "whatever") = some "abc" ∧
    extractPlaceId none (some (String.mk ("places/".toList ++ "xyz".toList)))
      = some (String.mk "xyz".toList) ∧
    (place_details_async (some "KEY") "q"
        (fun _ => some ⟨none, some "venues/zzz"⟩) (fun _ => some (0 : Nat))
        ⟨RedisClient.noBackend, RedisClient.noBackend, 0⟩).1
      = PDResult.errorRes "Could not extract place ID" := by
  refine ⟨?_, ?_, ?_⟩
  · exact C9_extraction.1 "abc" (by decide) (some "whatever")
  · exact C9_extraction.2.1 "xyz".toList (by decide)
  · exact C9_extraction.2.2 ⟨none, some "venues/zzz"⟩ "KEY" "q"
      (fun _ => some 0) ⟨RedisClient.noBackend, RedisClient.noBackend, 0⟩
      (by decide) (by decide) (by decide) (by decide)

/-- C10.  `place_details_async` short-circuits before any I/O: with
the API key unset it returns the structured error
`GOOGLE_MAPS_API_KEY not configured`, and with the key configured and
an empty query it returns `query cannot be empty` — in both cases the
state (cache handles and network-call counter) is returned unchanged,
i.e. no cache lookup, no session/governor involvement and no upstream
request happens, and no exception is raised.  (The key guard runs
first, so when the key is unset the key error is returned even for the
empty query.) -/
theorem C10_guard_short_circuit {α : Type} (q : String)
    (upS : Nat → Option PlacePayload) (upD : Nat → Option α)
    (st : PDSt α) :
    place_details_async none q upS upD st
      = (PDResult.errorRes "GOOGLE_MAPS_API_KEY not configured", st) ∧
    (∀ k : String, k ≠ "" →
       place_details_async (some k) "" upS upD st
         = (PDResult.errorRes "query cannot be empty", st)) := by
  constructor
  · rfl
  · intro k hk
    simp [place_details_async, hk]

/-- Witness for `C10_guard_short_circuit`: concrete unset-key and
empty-query invocations, each returning its structured error with the
state untouched. -/
theorem C10_guard_short_circuit_witness :
    place_details_async none "Louvre" (fun _ => none)
        (fun _ => (none : Option Nat))
        ⟨RedisClient.noBackend, RedisClient.noBackend, 0⟩
      = (PDResult.errorRes "GOOGLE_MAPS_API_KEY not configured",
         ⟨RedisClient.noBackend, RedisClient.noBackend, 0⟩) ∧
    place_details_async (some "AIza") "" (fun _ => none)
        (fun _ => (none : Option Nat))
        ⟨RedisClient.noBackend, RedisClient.noBackend, 0⟩
      = (PDResult.errorRes "query cannot be empty",
         ⟨RedisClient.noBackend, RedisClient.noBackend, 0⟩) := by
  refine ⟨?_, ?_⟩
  · exact (C10_guard_short_circuit "Louvre" (fun _ => none)
      (fun _ => (none : Option Nat))
      ⟨RedisClient.noBackend, RedisClient.noBackend, 0⟩).1
  · exact (C10_guard_short_circuit "" (fun _ => none)
      (fun _ => (none : Option Nat))
      ⟨RedisClient.noBackend, RedisClient.noBackend, 0⟩).2 "AIza" (by decide)

end DynoTrip
